import Mathlib

/-
Verification of the ClickUp MCP server task-service layer.

The development shallowly embeds the TypeScript sources:
- `task-custom-fields.ts` (TaskServiceCustomFields),
- the `TaskService` facade,
- the top-level `main` bootstrap wrapper.

HTTP I/O is modelled by an explicit environment (which requests succeed and
with what data) together with an explicit trace of the requests issued, so
that side effects (POST calls, mutations, process exit) are observable.
Parts of the repository that the sources reference but that are not present
(`task-core.ts`, `base.ts`, `task-search.ts`, `task-tags.ts`,
`task-comments.ts`, `task-attachments.ts`) are modelled from the
specification; each such definition is marked `Modelled from the spec:`.
-/

/-- Untyped custom-field payloads (`value: any` in the source): an opaque
JSON-like tagged value. -/
inductive Value where
  | str : String → Value
  | num : Int → Value
  | bool : Bool → Value
  | null : Value
deriving DecidableEq, Repr

/-- Error classification, after `ErrorCode` imported from `base.ts`
(spec section 7: NotFound, Ambiguous, Validation, Upstream). -/
inductive ErrorCode where
  | notFound
  | ambiguous
  | validation
  | upstream
  | unknown
deriving DecidableEq, Repr

/-- A wrapped service error: a classification plus the stack of
human-readable context messages accumulated while re-throwing
(most recent first). -/
structure ServiceError where
  code : ErrorCode
  messages : List String
deriving DecidableEq, Repr

/-- A raw failure before `handleError` wraps it: a plain `new Error(msg)`,
an HTTP failure carrying its status and body, or an already-wrapped
service error being re-thrown. -/
inductive RawError where
  | plain : String → RawError
  | http : Nat → String → RawError
  | wrapped : ServiceError → RawError
deriving DecidableEq, Repr

/-- Whether a message contains the words "not found". -/
def msgSaysNotFound (m : String) : Bool :=
  decide ("not found".toList <:+: m.toList)

/-- Modelled from the spec: `handleError` (in `TaskServiceCore` / `base.ts`,
not present under `src/`) wraps a failure "with a human-readable message
naming the operation and key identifiers" before re-throwing, and classifies
it (NotFound, Ambiguous, Validation, Upstream).  An already-wrapped service
error keeps its classification and its messages, the new context being
pushed on top, so nothing is silently swallowed; a 404 HTTP failure and a
plain error whose message says "not found" are classified NotFound. -/
def handleError : RawError → String → ServiceError
  | .wrapped e, ctx => ⟨e.code, ctx :: e.messages⟩
  | .plain m, ctx => ⟨if msgSaysNotFound m then .notFound else .unknown, [ctx, m]⟩
  | .http st m, ctx => ⟨if st = 404 then .notFound else .upstream, [ctx, m]⟩

/-- A ClickUp task as this layer sees it (`types.ts` is not under `src/`;
the attributes follow spec section 3: id, name, owning list, optional
custom id, update timestamp, and an optional custom-fields mapping from
field ID to value, absent when the task has none). -/
structure ClickUpTask where
  id : String
  name : String
  listId : String
  customId : Option String := none
  dateUpdated : Nat := 0
  custom_fields : Option (List (String × Value)) := none
deriving DecidableEq, Repr

/-- The environment a `TaskServiceCore` call runs against: which task every
get-by-id call returns, and whether the POST setting a given field on a
given task succeeds (`none`) or fails with an HTTP status and body
(`some (status, body)`). -/
structure CoreEnv where
  getTaskById : String → Option ClickUpTask
  post : String → String → Value → Option (Nat × String)

/-- Modelled from the spec: `TaskServiceCore.getTask(id)` (in
`task-core.ts`, not present under `src/`) issues one get-by-id HTTP call
and returns the task, failing (404 → NotFound) when the ID does not
exist. -/
def getTask (env : CoreEnv) (taskId : String) : Except ServiceError ClickUpTask :=
  match env.getTaskById taskId with
  | some t => .ok t
  | none =>
    .error (handleError (.http 404 ("Task " ++ taskId ++ " not found"))
      ("Failed to get task " ++ taskId))

/-- `CustomFieldValue` from `task-custom-fields.ts`: a custom field ID
paired with the value to set. -/
structure CustomFieldValue where
  id : String
  value : Value
deriving DecidableEq, Repr

/-- Observable trace of the custom-field POSTs: every POST issued
(`attempted`, in order) and every POST that succeeded and hence applied its
field on ClickUp's side (`applied`, in order), each as
(task ID, field ID, value). -/
structure St where
  applied : List (String × String × Value) := []
  attempted : List (String × String × Value) := []
deriving DecidableEq, Repr

namespace TaskServiceCustomFields

/-- `setCustomFieldValue` from `task-custom-fields.ts`: issue one POST to
`/task/{taskId}/field/{fieldId}`; return `true` on success, otherwise wrap
the failure via `handleError` with a message naming the field. -/
def setCustomFieldValue (env : CoreEnv) (taskId fieldId : String) (value : Value)
    (s : St) : St × Except ServiceError Bool :=
  let s₁ : St := { s with attempted := s.attempted ++ [(taskId, fieldId, value)] }
  match env.post taskId fieldId value with
  | none => ({ s₁ with applied := s₁.applied ++ [(taskId, fieldId, value)] }, .ok true)
  | some (st, body) =>
    (s₁, .error (handleError (.http st body)
      ("Failed to set custom field \"" ++ fieldId ++ "\" value")))

/-- The `for (const field of customFields)` loop body of
`setCustomFieldValues`: apply `setCustomFieldValue` to each pair in input
order, stopping at the first failure. -/
def setCustomFieldValuesGo (env : CoreEnv) (taskId : String) :
    List CustomFieldValue → St → St × Except ServiceError Bool
  | [], s => (s, .ok true)
  | field :: rest, s =>
    match setCustomFieldValue env taskId field.id field.value s with
    | (s₁, .ok _) => setCustomFieldValuesGo env taskId rest s₁
    | (s₁, .error e) => (s₁, .error e)

/-- `setCustomFieldValues` from `task-custom-fields.ts`: run the sequential
loop; on success return `true`, on failure re-wrap the propagated error
with the batch-level context message. -/
def setCustomFieldValues (env : CoreEnv) (taskId : String)
    (customFields : List CustomFieldValue) (s : St) : St × Except ServiceError Bool :=
  match setCustomFieldValuesGo env taskId customFields s with
  | (s₁, .ok _) => (s₁, .ok true)
  | (s₁, .error e) =>
    (s₁, .error (handleError (.wrapped e) "Failed to set custom field values"))

/-- `getCustomFieldValues` from `task-custom-fields.ts`: fetch the full
task via `getTask` and return `task.custom_fields || {}`; wrap any fetch
failure. -/
def getCustomFieldValues (env : CoreEnv) (taskId : String) :
    Except ServiceError (List (String × Value)) :=
  match getTask env taskId with
  | .ok task => .ok (task.custom_fields.getD [])
  | .error e => .error (handleError (.wrapped e) "Failed to get custom field values")

/-- `getCustomFieldValue` from `task-custom-fields.ts`: look the field up in
the mapping returned by `getCustomFieldValues`; if the key is absent, throw
a "not found" error through `handleError`; every failure escaping the `try`
block is re-wrapped with a message naming the field. -/
def getCustomFieldValue (env : CoreEnv) (taskId fieldId : String) :
    Except ServiceError Value :=
  match getCustomFieldValues env taskId with
  | .error e =>
    .error (handleError (.wrapped e)
      ("Failed to get custom field \"" ++ fieldId ++ "\" value"))
  | .ok customFields =>
    match customFields.lookup fieldId with
    | some v => .ok v
    | none =>
      let msg := "Custom field \"" ++ fieldId ++ "\" not found on task"
      let e := handleError (.plain msg) msg
      .error (handleError (.wrapped e)
        ("Failed to get custom field \"" ++ fieldId ++ "\" value"))

end TaskServiceCustomFields

/-- Result of a `findTasks` resolution: a single task, an ordered sequence
of tasks (only when multiple matches are explicitly allowed), or nothing. -/
inductive FindResult where
  | one : ClickUpTask → FindResult
  | many : List ClickUpTask → FindResult
  | nothing : FindResult
deriving DecidableEq, Repr

/-- The workspace a search runs over: all tasks (each carrying its owning
list's ID) and the lists as (ID, name) pairs. -/
structure SearchEnv where
  tasks : List ClickUpTask
  lists : List (String × String)

/-- Parameters of `findTasks`, after the parameter object in the
`TaskService.findTasks` facade signature. -/
structure FindTasksParams where
  taskId : Option String := none
  customTaskId : Option String := none
  taskName : Option String := none
  listId : Option String := none
  listName : Option String := none
  allowMultipleMatches : Bool := false
  useSmartDisambiguation : Bool := false
  includeFullDetails : Bool := false
  includeListContext : Bool := false
  requireExactMatch : Bool := false
deriving DecidableEq, Repr

/-- Case-insensitive substring match, for the non-exact name fallback. -/
def nameMatchesLoosely (taskName needle : String) : Bool :=
  decide (needle.toLower.toList <:+: taskName.toLower.toList)

/-- The Ambiguous error: its messages enumerate the candidates by ID. -/
def ambiguousError (taskName : String) (candidates : List ClickUpTask) : ServiceError :=
  ⟨.ambiguous,
    ("Multiple tasks found matching \"" ++ taskName ++ "\"")
      :: candidates.map (fun t => t.id)⟩

/-- Tie-break used by smart disambiguation: the most recently updated
candidate. -/
def smartPick : List ClickUpTask → Option ClickUpTask
  | [] => none
  | t :: rest =>
    match smartPick rest with
    | none => some t
    | some b => if b.dateUpdated > t.dateUpdated then some b else some t

namespace TaskServiceSearch

/-- Modelled from the spec: `findTaskByNameGlobally` (in `task-search.ts`,
not present under `src/`) "issues a workspace-wide task query and filters
client-side by name equality", returning a task or null — no match returns
null, not an error. -/
def findTaskByNameGlobally (env : SearchEnv) (taskName : String) :
    Except ServiceError (Option ClickUpTask) :=
  .ok ((env.tasks.filter (fun t => t.name == taskName)).head?)

/-- Exact (case-sensitive) name matches within one list. -/
def exactMatchesInList (env : SearchEnv) (listId taskName : String) : List ClickUpTask :=
  env.tasks.filter (fun t => t.listId == listId && t.name == taskName)

/-- Modelled from the spec: `findTaskByName(listId, taskName)` (in
`task-search.ts`, not present under `src/`) scans the tasks of one list for
an exact name match and returns the match or null. -/
def findTaskByName (env : SearchEnv) (listId taskName : String) :
    Except ServiceError (Option ClickUpTask) :=
  .ok (exactMatchesInList env listId taskName).head?

/-- Step 4 of the `findTasks` resolution policy: shape a list of name
matches into a result — null on no match, the task on a unique match; on
multiple matches, return them all when `allowMultipleMatches`, else apply
smart disambiguation when enabled, else fail with Ambiguous enumerating
the candidates. -/
def resolveMatches (p : FindTasksParams) (taskName : String) :
    List ClickUpTask → Except ServiceError FindResult
  | [] => .ok .nothing
  | [t] => .ok (.one t)
  | t₁ :: t₂ :: rest =>
    if p.allowMultipleMatches then .ok (.many (t₁ :: t₂ :: rest))
    else if p.useSmartDisambiguation then
      match smartPick (t₁ :: t₂ :: rest) with
      | some t => .ok (.one t)
      | none => .error (ambiguousError taskName (t₁ :: t₂ :: rest))
    else .error (ambiguousError taskName (t₁ :: t₂ :: rest))

/-- Name search scoped to one list (resolution step 2): exact
(case-sensitive) matches; when there are none and `requireExactMatch` is
false, fall back to case-insensitive/substring matches. -/
def scopedNameMatches (env : SearchEnv) (p : FindTasksParams)
    (listId taskName : String) : List ClickUpTask :=
  let inList := env.tasks.filter (fun t => t.listId == listId)
  let exactMatches := inList.filter (fun t => t.name == taskName)
  if exactMatches.isEmpty && !p.requireExactMatch then
    inList.filter (fun t => nameMatchesLoosely t.name taskName)
  else exactMatches

/-- Modelled from the spec: `findTasks(params)` (in `task-search.ts`, not
present under `src/`), following the resolution order of spec section 4.1:
(1) an explicit `taskId`/`customTaskId` resolves directly by a get-by-id
lookup, short-circuiting all name-based search, and fails NotFound when the
ID does not exist; (2) a `taskName` scoped by `listId`/`listName` searches
that list only; (3) an unscoped `taskName` searches the whole workspace by
name equality; (4) multiple matches are shaped by `resolveMatches`. -/
def findTasks (env : SearchEnv) (p : FindTasksParams) :
    Except ServiceError FindResult :=
  match p.taskId with
  | some tid =>
    match env.tasks.find? (fun t => t.id == tid) with
    | some t => .ok (.one t)
    | none =>
      .error (handleError (.http 404 ("Task " ++ tid ++ " not found"))
        ("Failed to find task " ++ tid))
  | none =>
  match p.customTaskId with
  | some cid =>
    match env.tasks.find? (fun t => t.customId == some cid) with
    | some t => .ok (.one t)
    | none =>
      .error (handleError (.http 404 ("Task " ++ cid ++ " not found"))
        ("Failed to find task " ++ cid))
  | none =>
  match p.taskName with
  | none => .error ⟨.validation, ["A task ID or task name is required"]⟩
  | some taskName =>
    match p.listId with
    | some lid => resolveMatches p taskName (scopedNameMatches env p lid taskName)
    | none =>
      match p.listName with
      | some ln =>
        match env.lists.find? (fun l => l.2 == ln) with
        | some l => resolveMatches p taskName (scopedNameMatches env p l.1 taskName)
        | none => .error ⟨.notFound, ["List \"" ++ ln ++ "\" not found"]⟩
      | none =>
        resolveMatches p taskName (env.tasks.filter (fun t => t.name == taskName))

/-- Update payload (`UpdateTaskData` from `types.ts`, not under `src/`):
the optional attributes an update may change. -/
structure UpdateTaskData where
  name : Option String := none
  description : Option String := none
deriving DecidableEq, Repr

/-- Effect of an update call on a task. -/
def applyUpdate (t : ClickUpTask) (u : UpdateTaskData) : ClickUpTask :=
  { t with name := u.name.getD t.name }

/-- Modelled from the spec: `updateTaskByName(listId, taskName, updateData)`
(in `task-search.ts`, not present under `src/`) composes in-list exact-name
resolution with a subsequent update call; when resolution yields zero or
more than one match, the update is not attempted and the resolution error
is surfaced.  The first component of the result is the trace of update
calls issued, as (task ID, payload) pairs. -/
def updateTaskByName (env : SearchEnv) (listId taskName : String)
    (updateData : UpdateTaskData) :
    List (String × UpdateTaskData) × Except ServiceError ClickUpTask :=
  match exactMatchesInList env listId taskName with
  | [t] => ([(t.id, updateData)], .ok (applyUpdate t updateData))
  | [] =>
    ([], .error ⟨.notFound,
      ["Task \"" ++ taskName ++ "\" not found in list " ++ listId]⟩)
  | ms => ([], .error (ambiguousError taskName ms))

end TaskServiceSearch

/-- Actions observable from `main` (the bootstrap wrapper file): a call to
`bootstrap()`, console output, and terminating the process with an exit
code. -/
inductive MainAction where
  | bootstrapCall : MainAction
  | log : String → MainAction
  | logError : String → MainAction
  | exitProcess : Nat → MainAction
deriving DecidableEq, Repr

namespace Bootstrap

/-- `main` from the bootstrap wrapper: log, call `bootstrap()` once, and on
any bootstrap error log the failure and exit the process with code 1; on
success exit nothing.  The argument is the outcome of the one `bootstrap()`
call; the result is the trace of actions `main` performs. -/
def main (bootstrapResult : Except String Unit) : List MainAction :=
  match bootstrapResult with
  | .ok _ =>
    [.log "--> [DEBUG] Attempting to bootstrap the server...",
     .bootstrapCall,
     .log "--> [DEBUG] Bootstrap completed successfully. The server should be running."]
  | .error e =>
    [.log "--> [DEBUG] Attempting to bootstrap the server...",
     .bootstrapCall,
     .logError "!!! A FATAL ERROR OCCURRED DURING BOOTSTRAP !!!",
     .logError e,
     .exitProcess 1]

end Bootstrap

/-- Modelled from the spec: the tags feature module (`task-tags.ts`, not
present under `src/`) as an opaque record of its operations (spec
section 4.3). -/
structure TaskServiceTags where
  addTagToTask : String → String → Except ServiceError Bool
  removeTagFromTask : String → String → Except ServiceError Bool
  getTaskTags : String → Except ServiceError (List String)
  updateTaskTags : String → List String → Except ServiceError Bool

/-- Modelled from the spec: the comments feature module
(`task-comments.ts`, not present under `src/`) as an opaque record of its
operations. -/
structure TaskServiceComments where
  getTaskComments : String → Option Nat → Option String → Except ServiceError (List String)
  createTaskComment : String → String → Option Bool → Option Nat → Except ServiceError String

/-- Modelled from the spec: the attachments feature module
(`task-attachments.ts`, not present under `src/`) as an opaque record of
its operations. -/
structure TaskServiceAttachments where
  uploadTaskAttachment : String → List Nat → String → Except ServiceError String
  uploadTaskAttachmentFromUrl : String → String → Option String → Option String → Except ServiceError String

/-- Modelled from the spec: `ExtendedTaskFilters` (`types.ts`, not present
under `src/`) — a per-call configuration object describing scope (list,
workspace, view), matching mode and result-shaping flags (spec
section 3). -/
structure ExtendedTaskFilters where
  listId : Option String := none
  viewId : Option String := none
  taskName : Option String := none
  includeClosed : Bool := false
  detailLevel : Option String := none
deriving DecidableEq, Repr

/-- Modelled from the spec: `WorkspaceTasksResponse` (`types.ts`, not
present under `src/`) — the summary-shaped workspace task listing. -/
structure WorkspaceTasksResponse where
  summaries : List ClickUpTask
deriving DecidableEq, Repr

/-- Modelled from the spec: `DetailedTaskResponse` (`types.ts`, not present
under `src/`) — the full-detail-shaped workspace task listing. -/
structure DetailedTaskResponse where
  tasks : List ClickUpTask
deriving DecidableEq, Repr

/-- Modelled from the spec: the workspace-level search operations of
`task-search.ts` (not present under `src/`) that the facade also
delegates — `getWorkspaceTasks` (full details or summaries, depending on
the filters), `getTaskSummaries`, `getListViews`, `getTasksFromView` and
`getTaskDetails` — as an opaque record of its operations. -/
structure TaskServiceSearch.Ops where
  getWorkspaceTasks : ExtendedTaskFilters →
    Except ServiceError (DetailedTaskResponse ⊕ WorkspaceTasksResponse)
  getTaskSummaries : ExtendedTaskFilters → Except ServiceError WorkspaceTasksResponse
  getListViews : String → Except ServiceError (Option String)
  getTasksFromView : String → ExtendedTaskFilters → Except ServiceError (List ClickUpTask)
  getTaskDetails : ExtendedTaskFilters → Except ServiceError DetailedTaskResponse

namespace TaskService

/-- Facade delegation to `this.search.getWorkspaceTasks`. -/
def getWorkspaceTasks (search : TaskServiceSearch.Ops) (filters : ExtendedTaskFilters) :
    Except ServiceError (DetailedTaskResponse ⊕ WorkspaceTasksResponse) :=
  search.getWorkspaceTasks filters

/-- Facade delegation to `this.search.getTaskSummaries`. -/
def getTaskSummaries (search : TaskServiceSearch.Ops) (filters : ExtendedTaskFilters) :
    Except ServiceError WorkspaceTasksResponse :=
  search.getTaskSummaries filters

/-- Facade delegation to `this.search.getListViews`. -/
def getListViews (search : TaskServiceSearch.Ops) (listId : String) :
    Except ServiceError (Option String) :=
  search.getListViews listId

/-- Facade delegation to `this.search.getTasksFromView`. -/
def getTasksFromView (search : TaskServiceSearch.Ops) (viewId : String)
    (filters : ExtendedTaskFilters) :
    Except ServiceError (List ClickUpTask) :=
  search.getTasksFromView viewId filters

/-- Facade delegation to `this.search.getTaskDetails`. -/
def getTaskDetails (search : TaskServiceSearch.Ops) (filters : ExtendedTaskFilters) :
    Except ServiceError DetailedTaskResponse :=
  search.getTaskDetails filters

/-- Facade delegation: `TaskService.findTasks` returns `this.search.findTasks(params)`. -/
def findTasks (env : SearchEnv) (p : FindTasksParams) : Except ServiceError FindResult :=
  TaskServiceSearch.findTasks env p

/-- Facade delegation to `this.search.findTaskByNameGlobally`. -/
def findTaskByNameGlobally (env : SearchEnv) (taskName : String) :
    Except ServiceError (Option ClickUpTask) :=
  TaskServiceSearch.findTaskByNameGlobally env taskName

/-- Facade delegation to `this.search.findTaskByName`. -/
def findTaskByName (env : SearchEnv) (listId taskName : String) :
    Except ServiceError (Option ClickUpTask) :=
  TaskServiceSearch.findTaskByName env listId taskName

/-- Facade delegation to `this.search.updateTaskByName`. -/
def updateTaskByName (env : SearchEnv) (listId taskName : String)
    (updateData : TaskServiceSearch.UpdateTaskData) :
    List (String × TaskServiceSearch.UpdateTaskData) × Except ServiceError ClickUpTask :=
  TaskServiceSearch.updateTaskByName env listId taskName updateData

/-- Facade delegation to `this.customFields.setCustomFieldValue`. -/
def setCustomFieldValue (env : CoreEnv) (taskId fieldId : String) (value : Value)
    (s : St) : St × Except ServiceError Bool :=
  TaskServiceCustomFields.setCustomFieldValue env taskId fieldId value s

/-- Facade delegation to `this.customFields.setCustomFieldValues`. -/
def setCustomFieldValues (env : CoreEnv) (taskId : String)
    (customFields : List CustomFieldValue) (s : St) : St × Except ServiceError Bool :=
  TaskServiceCustomFields.setCustomFieldValues env taskId customFields s

/-- Facade delegation to `this.customFields.getCustomFieldValues`. -/
def getCustomFieldValues (env : CoreEnv) (taskId : String) :
    Except ServiceError (List (String × Value)) :=
  TaskServiceCustomFields.getCustomFieldValues env taskId

/-- Facade delegation to `this.customFields.getCustomFieldValue`. -/
def getCustomFieldValue (env : CoreEnv) (taskId fieldId : String) :
    Except ServiceError Value :=
  TaskServiceCustomFields.getCustomFieldValue env taskId fieldId

/-- Facade delegation to `this.tags.addTagToTask`. -/
def addTagToTask (tags : TaskServiceTags) (taskId tagName : String) :
    Except ServiceError Bool :=
  tags.addTagToTask taskId tagName

/-- Facade delegation to `this.tags.removeTagFromTask`. -/
def removeTagFromTask (tags : TaskServiceTags) (taskId tagName : String) :
    Except ServiceError Bool :=
  tags.removeTagFromTask taskId tagName

/-- Facade delegation to `this.tags.getTaskTags`. -/
def getTaskTags (tags : TaskServiceTags) (taskId : String) :
    Except ServiceError (List String) :=
  tags.getTaskTags taskId

/-- Facade delegation to `this.tags.updateTaskTags`. -/
def updateTaskTags (tags : TaskServiceTags) (taskId : String) (tagNames : List String) :
    Except ServiceError Bool :=
  tags.updateTaskTags taskId tagNames

/-- Facade delegation to `this.comments.getTaskComments`. -/
def getTaskComments (comments : TaskServiceComments) (taskId : String)
    (start : Option Nat) (startId : Option String) :
    Except ServiceError (List String) :=
  comments.getTaskComments taskId start startId

/-- Facade delegation to `this.comments.createTaskComment`. -/
def createTaskComment (comments : TaskServiceComments) (taskId commentText : String)
    (notifyAll : Option Bool) (assignee : Option Nat) :
    Except ServiceError String :=
  comments.createTaskComment taskId commentText notifyAll assignee

/-- Facade delegation to `this.attachments.uploadTaskAttachment`. -/
def uploadTaskAttachment (attachments : TaskServiceAttachments) (taskId : String)
    (fileData : List Nat) (fileName : String) :
    Except ServiceError String :=
  attachments.uploadTaskAttachment taskId fileData fileName

/-- Facade delegation to `this.attachments.uploadTaskAttachmentFromUrl`. -/
def uploadTaskAttachmentFromUrl (attachments : TaskServiceAttachments)
    (taskId fileUrl : String) (fileName authHeader : Option String) :
    Except ServiceError String :=
  attachments.uploadTaskAttachmentFromUrl taskId fileUrl fileName authHeader

end TaskService

/-- The POST triples a list of custom-field pairs gives rise to on one
task, in input order. -/
def fieldTriples (taskId : String) (fs : List CustomFieldValue) :
    List (String × String × Value) :=
  fs.map (fun f => (taskId, f.id, f.value))

/-- Sample task with one custom field, for concrete witnesses. -/
def sampleTask : ClickUpTask :=
  { id := "t1", name := "Alpha", listId := "L1",
    custom_fields := some [("f1", .num 7)] }

/-- Sample task without a custom-fields attribute. -/
def sampleTaskBare : ClickUpTask :=
  { id := "t2", name := "Beta", listId := "L1" }

/-- Sample core environment: two known tasks; POSTs succeed except on the
field "bad", which fails with HTTP 500. -/
def sampleEnv : CoreEnv :=
  { getTaskById := fun tid =>
      if tid = "t1" then some sampleTask
      else if tid = "t2" then some sampleTaskBare
      else none,
    post := fun _ fieldId _ => if fieldId = "bad" then some (500, "boom") else none }

/-- Running the sequential loop on `pre ++ l` when every POST of `pre`
succeeds first applies all of `pre` in order and then continues with `l`. -/
theorem setCustomFieldValuesGo_append_ok (env : CoreEnv) (taskId : String)
    (pre l : List CustomFieldValue) :
    ∀ s : St, (∀ f ∈ pre, env.post taskId f.id f.value = none) →
      TaskServiceCustomFields.setCustomFieldValuesGo env taskId (pre ++ l) s =
        TaskServiceCustomFields.setCustomFieldValuesGo env taskId l
          ⟨s.applied ++ fieldTriples taskId pre, s.attempted ++ fieldTriples taskId pre⟩ := by
  induction pre with
  | nil => intro s h; simp [fieldTriples]
  | cons f pre ih =>
    intro s h
    have hf : env.post taskId f.id f.value = none := h f (by simp)
    simp only [List.cons_append, TaskServiceCustomFields.setCustomFieldValuesGo,
      TaskServiceCustomFields.setCustomFieldValue, hf, List.append_eq]
    rw [ih _ (fun g hg => h g (by simp [hg]))]
    simp [fieldTriples, List.append_assoc]

/-- When the head field's POST fails, the loop stops there: the head is
attempted but not applied, and the error names the head field. -/
theorem setCustomFieldValuesGo_fail_head (env : CoreEnv) (taskId : String)
    (fk : CustomFieldValue) (tl : List CustomFieldValue) (s : St)
    (st : Nat) (body : String) (h : env.post taskId fk.id fk.value = some (st, body)) :
    TaskServiceCustomFields.setCustomFieldValuesGo env taskId (fk :: tl) s =
      (⟨s.applied, s.attempted ++ [(taskId, fk.id, fk.value)]⟩,
       .error (handleError (.http st body)
         ("Failed to set custom field \"" ++ fk.id ++ "\" value"))) := by
  simp [TaskServiceCustomFields.setCustomFieldValuesGo,
    TaskServiceCustomFields.setCustomFieldValue, h]

/-- C1: `setCustomFieldValues` applies `setCustomFieldValue` to the pairs
sequentially in input order; when every POST succeeds all fields are
applied in order, and when the first failing field is `fk` (after the
all-successful prefix `pre`), exactly `pre` remains applied, `pre ++ [fk]`
is all that was ever attempted — the remaining fields are never attempted,
no rollback occurs — and the propagated error names `fk`. -/
theorem setCustomFieldValues_sequential_firstFailure
    (env : CoreEnv) (taskId : String) (customFields : List CustomFieldValue) (s : St) :
    ((∀ f ∈ customFields, env.post taskId f.id f.value = none) →
      TaskServiceCustomFields.setCustomFieldValues env taskId customFields s =
        (⟨s.applied ++ fieldTriples taskId customFields,
          s.attempted ++ fieldTriples taskId customFields⟩, .ok true)) ∧
    (∀ pre fk tl, customFields = pre ++ fk :: tl →
      (∀ f ∈ pre, env.post taskId f.id f.value = none) →
      env.post taskId fk.id fk.value ≠ none →
      (TaskServiceCustomFields.setCustomFieldValues env taskId customFields s).1.applied
          = s.applied ++ fieldTriples taskId pre ∧
      (TaskServiceCustomFields.setCustomFieldValues env taskId customFields s).1.attempted
          = s.attempted ++ fieldTriples taskId (pre ++ [fk]) ∧
      ∃ e, (TaskServiceCustomFields.setCustomFieldValues env taskId customFields s).2
          = .error e ∧
        ("Failed to set custom field \"" ++ fk.id ++ "\" value") ∈ e.messages) := by
  constructor
  · intro h
    unfold TaskServiceCustomFields.setCustomFieldValues
    have hgo := setCustomFieldValuesGo_append_ok env taskId customFields [] s h
    rw [List.append_nil] at hgo
    rw [hgo]
    simp [TaskServiceCustomFields.setCustomFieldValuesGo]
  · intro pre fk tl hd hpre hfk
    obtain ⟨q, hq⟩ : ∃ q, env.post taskId fk.id fk.value = some q := by
      cases hc : env.post taskId fk.id fk.value with
      | none => exact absurd hc hfk
      | some q => exact ⟨q, rfl⟩
    obtain ⟨st, body⟩ := q
    subst hd
    unfold TaskServiceCustomFields.setCustomFieldValues
    rw [setCustomFieldValuesGo_append_ok env taskId pre (fk :: tl) s hpre,
      setCustomFieldValuesGo_fail_head env taskId fk tl _ st body hq]
    refine ⟨rfl, ?_, ?_⟩
    · simp [fieldTriples, List.append_assoc]
    · exact ⟨_, rfl, by simp [handleError]⟩

/-- Concrete run of the C1 theorem: with the second of three fields
failing, the batch error names the failing field "bad". -/
theorem setCustomFieldValues_sequential_firstFailure_witness :
    ∃ e, (TaskServiceCustomFields.setCustomFieldValues sampleEnv "t1"
        [⟨"a", Value.num 1⟩, ⟨"bad", Value.num 2⟩, ⟨"c", Value.num 3⟩] {}).2
      = .error e ∧
      ("Failed to set custom field \"bad\" value") ∈ e.messages := by
  have h := (setCustomFieldValues_sequential_firstFailure sampleEnv "t1"
      [⟨"a", Value.num 1⟩, ⟨"bad", Value.num 2⟩, ⟨"c", Value.num 3⟩] {}).2
      [⟨"a", Value.num 1⟩] ⟨"bad", Value.num 2⟩ [⟨"c", Value.num 3⟩] rfl
      (by decide) (by decide)
  exact h.2.2

/-- The "Custom field ... not found on task" message always says
"not found", whatever the field ID. -/
theorem msgSaysNotFound_customFieldMsg (fieldId : String) :
    msgSaysNotFound ("Custom field \"" ++ fieldId ++ "\" not found on task") = true := by
  unfold msgSaysNotFound
  rw [decide_eq_true_eq]
  have h1 : "not found".toList <:+: ("\" not found on task").toList := by decide
  have h2 : (("Custom field \"" ++ fieldId) ++ "\" not found on task").toList
      = ("Custom field \"" ++ fieldId).toList ++ ("\" not found on task").toList := by
    simp [String.toList]
  rw [h2]
  exact h1.trans (List.suffix_append _ _).isInfix

/-- C2: `getCustomFieldValue` returns a value exactly when the field ID is
a key of the mapping returned by `getCustomFieldValues`; on an absent key
it fails with a NotFound-classified error (never silently returning a
value), and on a present key it returns the mapped value. -/
theorem getCustomFieldValue_notFoundOnAbsentKey (env : CoreEnv) (taskId fieldId : String)
    (cf : List (String × Value))
    (hcf : TaskServiceCustomFields.getCustomFieldValues env taskId = .ok cf) :
    ((∃ v, TaskServiceCustomFields.getCustomFieldValue env taskId fieldId = .ok v) ↔
      (cf.lookup fieldId).isSome = true) ∧
    (cf.lookup fieldId = none →
      ∃ e, TaskServiceCustomFields.getCustomFieldValue env taskId fieldId = .error e ∧
        e.code = .notFound) ∧
    (∀ v, cf.lookup fieldId = some v →
      TaskServiceCustomFields.getCustomFieldValue env taskId fieldId = .ok v) := by
  unfold TaskServiceCustomFields.getCustomFieldValue
  rw [hcf]
  cases hl : cf.lookup fieldId with
  | some v => simp [hl]
  | none => simp [hl, handleError, msgSaysNotFound_customFieldMsg]

/-- Concrete run of the C2 theorem: looking up the absent field "nope"
fails with a NotFound error. -/
theorem getCustomFieldValue_notFoundOnAbsentKey_witness :
    ∃ e, TaskServiceCustomFields.getCustomFieldValue sampleEnv "t1" "nope" = .error e ∧
      e.code = .notFound := by
  have h := getCustomFieldValue_notFoundOnAbsentKey sampleEnv "t1" "nope"
    [("f1", Value.num 7)] rfl
  exact h.2.1 rfl

/-- C7: `setCustomFieldValue` issues exactly one POST (the attempted trace
grows by exactly that one call); it returns `true` exactly when the POST
succeeds, never returns `false`, and on any failure the raised error's
messages name the field. -/
theorem setCustomFieldValue_singlePost (env : CoreEnv) (taskId fieldId : String)
    (v : Value) (s : St) :
    (TaskServiceCustomFields.setCustomFieldValue env taskId fieldId v s).1.attempted
      = s.attempted ++ [(taskId, fieldId, v)] ∧
    (env.post taskId fieldId v = none ↔
      (TaskServiceCustomFields.setCustomFieldValue env taskId fieldId v s).2 = .ok true) ∧
    (TaskServiceCustomFields.setCustomFieldValue env taskId fieldId v s).2 ≠ .ok false ∧
    (∀ e, (TaskServiceCustomFields.setCustomFieldValue env taskId fieldId v s).2 = .error e →
      ("Failed to set custom field \"" ++ fieldId ++ "\" value") ∈ e.messages) := by
  cases h : env.post taskId fieldId v with
  | none => simp [TaskServiceCustomFields.setCustomFieldValue, h]
  | some q =>
    obtain ⟨st, body⟩ := q
    simp [TaskServiceCustomFields.setCustomFieldValue, h, handleError]

/-- Concrete run of the C7 theorem: a successful POST returns `true` with
the one call recorded. -/
theorem setCustomFieldValue_singlePost_witness :
    (TaskServiceCustomFields.setCustomFieldValue sampleEnv "t1" "a" (Value.num 1) {}).1.attempted
      = [("t1", "a", Value.num 1)] ∧
    (TaskServiceCustomFields.setCustomFieldValue sampleEnv "t1" "a" (Value.num 1) {}).2
      = .ok true := by
  have h := setCustomFieldValue_singlePost sampleEnv "t1" "a" (Value.num 1) {}
  exact ⟨h.1, h.2.1.mp (by decide)⟩

/-- C8: `getCustomFieldValues` fetches the full task and returns its
custom-fields mapping, the empty mapping when the task has no
custom-fields attribute. -/
theorem getCustomFieldValues_extractsMapping (env : CoreEnv) (taskId : String)
    (t : ClickUpTask) (h : env.getTaskById taskId = some t) :
    TaskServiceCustomFields.getCustomFieldValues env taskId
      = .ok (t.custom_fields.getD []) ∧
    (t.custom_fields = none →
      TaskServiceCustomFields.getCustomFieldValues env taskId = .ok []) := by
  constructor
  · simp [TaskServiceCustomFields.getCustomFieldValues, getTask, h]
  · intro h2
    simp [TaskServiceCustomFields.getCustomFieldValues, getTask, h, h2]

/-- Concrete run of the C8 theorem: a task without the custom-fields
attribute yields the empty mapping. -/
theorem getCustomFieldValues_extractsMapping_witness :
    TaskServiceCustomFields.getCustomFieldValues sampleEnv "t2" = .ok [] := by
  exact (getCustomFieldValues_extractsMapping sampleEnv "t2" sampleTaskBare rfl).2 rfl

/-- Sample task "Foo" number one, in list "L". -/
def sampleFoo1 : ClickUpTask := { id := "1", name := "Foo", listId := "L", dateUpdated := 5 }

/-- Sample task "Foo" number two, also in list "L". -/
def sampleFoo2 : ClickUpTask := { id := "2", name := "Foo", listId := "L", dateUpdated := 9 }

/-- Sample task "Bar" in list "M". -/
def sampleBar : ClickUpTask := { id := "3", name := "Bar", listId := "M" }

/-- Sample workspace: two tasks named "Foo" in list "L" and one task
"Bar" in list "M". -/
def sampleSearchEnv : SearchEnv :=
  { tasks := [sampleFoo1, sampleFoo2, sampleBar],
    lists := [("L", "List L"), ("M", "List M")] }

/-- C4: a list-scoped name search finding at least two matches, with
`allowMultipleMatches` and `useSmartDisambiguation` both false, fails with
an Ambiguous error whose messages enumerate every candidate by ID — no
match is silently picked. -/
theorem findTasks_ambiguousOnMultipleMatches (env : SearchEnv) (p : FindTasksParams)
    (taskName lid : String)
    (h1 : p.taskId = none) (h2 : p.customTaskId = none)
    (h3 : p.taskName = some taskName) (h4 : p.listId = some lid)
    (h5 : p.allowMultipleMatches = false) (h6 : p.useSmartDisambiguation = false)
    (t₁ t₂ : ClickUpTask) (rest : List ClickUpTask)
    (hms : TaskServiceSearch.scopedNameMatches env p lid taskName = t₁ :: t₂ :: rest) :
    ∃ e, TaskServiceSearch.findTasks env p = .error e ∧ e.code = .ambiguous ∧
      ∀ t ∈ TaskServiceSearch.scopedNameMatches env p lid taskName,
        t.id ∈ e.messages := by
  refine ⟨ambiguousError taskName (t₁ :: t₂ :: rest), ?_, rfl, ?_⟩
  · simp [TaskServiceSearch.findTasks, h1, h2, h3, h4, hms,
      TaskServiceSearch.resolveMatches, h5, h6]
  · intro t ht
    rw [hms] at ht
    simp only [ambiguousError, List.mem_cons]
    exact Or.inr (List.mem_map_of_mem (fun u => u.id) ht)

/-- Concrete run of the C4 theorem: two tasks named "Foo" in list "L" make
the scoped search fail with Ambiguous, enumerating both candidates. -/
theorem findTasks_ambiguousOnMultipleMatches_witness :
    ∃ e, TaskServiceSearch.findTasks sampleSearchEnv
        { taskName := some "Foo", listId := some "L" } = .error e ∧
      e.code = .ambiguous ∧
      ∀ t ∈ TaskServiceSearch.scopedNameMatches sampleSearchEnv
          { taskName := some "Foo", listId := some "L" } "L" "Foo",
        t.id ∈ e.messages := by
  exact findTasks_ambiguousOnMultipleMatches sampleSearchEnv
    { taskName := some "Foo", listId := some "L" } "Foo" "L"
    rfl rfl rfl rfl rfl rfl sampleFoo1 sampleFoo2 [] (by decide)

/-- C5: `findTaskByNameGlobally` never raises: it always returns an `ok`
result; when no task in the workspace bears the name it returns null, and
any task it does return belongs to the workspace and matches the name
exactly (the client-side name-equality filter). -/
theorem findTaskByNameGlobally_nullOnNoMatch (env : SearchEnv) (taskName : String) :
    (∃ r, TaskServiceSearch.findTaskByNameGlobally env taskName = .ok r) ∧
    ((∀ t ∈ env.tasks, t.name ≠ taskName) →
      TaskServiceSearch.findTaskByNameGlobally env taskName = .ok none) ∧
    (∀ t, TaskServiceSearch.findTaskByNameGlobally env taskName = .ok (some t) →
      t ∈ env.tasks ∧ t.name = taskName) := by
  refine ⟨⟨_, rfl⟩, ?_, ?_⟩
  · intro h
    have : env.tasks.filter (fun t => t.name == taskName) = [] := by
      rw [List.filter_eq_nil_iff]
      intro t ht
      simp [h t ht]
    simp [TaskServiceSearch.findTaskByNameGlobally, this]
  · intro t ht
    have hh : (env.tasks.filter (fun t => t.name == taskName)).head? = some t := by
      simpa [TaskServiceSearch.findTaskByNameGlobally] using ht
    have hmem : t ∈ env.tasks.filter (fun t => t.name == taskName) :=
      List.mem_of_mem_head? hh
    have := List.mem_filter.mp hmem
    exact ⟨this.1, by simpa using this.2⟩

/-- Concrete run of the C5 theorem: no task is named "Zed", so the global
search returns null rather than an error. -/
theorem findTaskByNameGlobally_nullOnNoMatch_witness :
    TaskServiceSearch.findTaskByNameGlobally sampleSearchEnv "Zed" = .ok none := by
  exact (findTaskByNameGlobally_nullOnNoMatch sampleSearchEnv "Zed").2.1 (by decide)

/-- C6: `updateTaskByName` issues the update call only when in-list exact
name resolution yields exactly one task; on zero or multiple matches no
update call is issued and the resolution error (NotFound or Ambiguous) is
surfaced. -/
theorem updateTaskByName_requiresUniqueResolution (env : SearchEnv)
    (listId taskName : String) (u : TaskServiceSearch.UpdateTaskData) :
    (∀ t, TaskServiceSearch.exactMatchesInList env listId taskName = [t] →
      TaskServiceSearch.updateTaskByName env listId taskName u =
        ([(t.id, u)], .ok (TaskServiceSearch.applyUpdate t u))) ∧
    ((TaskServiceSearch.exactMatchesInList env listId taskName).length ≠ 1 →
      (TaskServiceSearch.updateTaskByName env listId taskName u).1 = [] ∧
      ∃ e, (TaskServiceSearch.updateTaskByName env listId taskName u).2 = .error e ∧
        (e.code = .notFound ∨ e.code = .ambiguous)) := by
  constructor
  · intro t ht
    simp [TaskServiceSearch.updateTaskByName, ht]
  · intro hlen
    cases hm : TaskServiceSearch.exactMatchesInList env listId taskName with
    | nil =>
      refine ⟨?_, ?_⟩ <;> simp [TaskServiceSearch.updateTaskByName, hm]
    | cons a l =>
      cases l with
      | nil => rw [hm] at hlen; simp at hlen
      | cons b l₂ =>
        refine ⟨?_, ?_⟩ <;> simp [TaskServiceSearch.updateTaskByName, hm, ambiguousError]

/-- Concrete run of the C6 theorem: two tasks named "Foo" in list "L" mean
no update call is issued and an error is surfaced. -/
theorem updateTaskByName_requiresUniqueResolution_witness :
    (TaskServiceSearch.updateTaskByName sampleSearchEnv "L" "Foo"
      { name := some "Baz" }).1 = [] ∧
    ∃ e, (TaskServiceSearch.updateTaskByName sampleSearchEnv "L" "Foo"
      { name := some "Baz" }).2 = .error e ∧
      (e.code = .notFound ∨ e.code = .ambiguous) := by
  exact (updateTaskByName_requiresUniqueResolution sampleSearchEnv "L" "Foo"
    { name := some "Baz" }).2 (by decide)

/-- C9: `main` calls `bootstrap()` exactly once (no retry or restart); when
bootstrap raises, `main` terminates the process and every exit it performs
carries code 1; when bootstrap succeeds, `main` performs no process
exit. -/
theorem main_exitCodeOneOnBootstrapFailure (b : Except String Unit) :
    ((Bootstrap.main b).count .bootstrapCall = 1) ∧
    (∀ e, b = .error e →
      MainAction.exitProcess 1 ∈ Bootstrap.main b ∧
      ∀ c, MainAction.exitProcess c ∈ Bootstrap.main b → c = 1) ∧
    (∀ u, b = .ok u → ∀ c, MainAction.exitProcess c ∉ Bootstrap.main b) := by
  cases b with
  | ok u =>
    refine ⟨rfl, ?_, ?_⟩
    · intro e he; cases he
    · intro _ _ c hc
      simp [Bootstrap.main] at hc
  | error e =>
    refine ⟨rfl, ?_, ?_⟩
    · intro e' he'
      constructor
      · simp [Bootstrap.main]
      · intro c hc
        simp [Bootstrap.main] at hc
        exact hc
    · intro u hu; cases hu

/-- Concrete run of the C9 theorem: a failing bootstrap makes `main` exit
the process with code 1. -/
theorem main_exitCodeOneOnBootstrapFailure_witness :
    MainAction.exitProcess 1 ∈ Bootstrap.main (.error "boom") := by
  exact ((main_exitCodeOneOnBootstrapFailure (.error "boom")).2.1 "boom" rfl).1

/-- C10: every delegated method of the `TaskService` facade — all
twenty-one of the search, custom-field, tag, comment and attachment
delegations — returns exactly the result of the corresponding composed
feature-module method at the same arguments. -/
theorem taskServiceFacade_delegates :
    (∀ env p, TaskService.findTasks env p = TaskServiceSearch.findTasks env p) ∧
    (∀ ops fl, TaskService.getWorkspaceTasks ops fl = ops.getWorkspaceTasks fl) ∧
    (∀ ops fl, TaskService.getTaskSummaries ops fl = ops.getTaskSummaries fl) ∧
    (∀ ops l, TaskService.getListViews ops l = ops.getListViews l) ∧
    (∀ ops vw fl, TaskService.getTasksFromView ops vw fl = ops.getTasksFromView vw fl) ∧
    (∀ ops fl, TaskService.getTaskDetails ops fl = ops.getTaskDetails fl) ∧
    (∀ env n, TaskService.findTaskByNameGlobally env n
      = TaskServiceSearch.findTaskByNameGlobally env n) ∧
    (∀ env l n, TaskService.findTaskByName env l n
      = TaskServiceSearch.findTaskByName env l n) ∧
    (∀ env l n u, TaskService.updateTaskByName env l n u
      = TaskServiceSearch.updateTaskByName env l n u) ∧
    (∀ env t f v s, TaskService.setCustomFieldValue env t f v s
      = TaskServiceCustomFields.setCustomFieldValue env t f v s) ∧
    (∀ env t fs s, TaskService.setCustomFieldValues env t fs s
      = TaskServiceCustomFields.setCustomFieldValues env t fs s) ∧
    (∀ env t, TaskService.getCustomFieldValues env t
      = TaskServiceCustomFields.getCustomFieldValues env t) ∧
    (∀ env t f, TaskService.getCustomFieldValue env t f
      = TaskServiceCustomFields.getCustomFieldValue env t f) ∧
    (∀ tags t n, TaskService.addTagToTask tags t n = tags.addTagToTask t n) ∧
    (∀ tags t n, TaskService.removeTagFromTask tags t n = tags.removeTagFromTask t n) ∧
    (∀ tags t, TaskService.getTaskTags tags t = tags.getTaskTags t) ∧
    (∀ tags t ns, TaskService.updateTaskTags tags t ns = tags.updateTaskTags t ns) ∧
    (∀ cs t st sid, TaskService.getTaskComments cs t st sid
      = cs.getTaskComments t st sid) ∧
    (∀ cs t txt nf a, TaskService.createTaskComment cs t txt nf a
      = cs.createTaskComment t txt nf a) ∧
    (∀ att t fd fn, TaskService.uploadTaskAttachment att t fd fn
      = att.uploadTaskAttachment t fd fn) ∧
    (∀ att t u fn ah, TaskService.uploadTaskAttachmentFromUrl att t u fn ah
      = att.uploadTaskAttachmentFromUrl t u fn ah) := by
  refine ⟨?_, ?_, ?_, ?_, ?_, ?_, ?_, ?_, ?_, ?_, ?_, ?_, ?_, ?_, ?_, ?_, ?_, ?_, ?_,
    ?_, ?_⟩ <;> intros <;> rfl
